import Mathlib

/-!
Verification of the soil-monitor telemetry agent's reconciliation logic.

The development embeds the control flow of MainController.py (the cycle body
of MainController.run, together with MainController.has_internet and
MainController.is_sensor_assigned) and the configuration constant
Config.MAX_OFFLINE_RECORDS from Config.py.  External collaborators
(urlopen, the MySQL lookup, SensorReader.read_data, OnlineLogger.save,
OfflineLogger.save/load_all/clear) are modelled by their outcomes, supplied
as explicit inputs of one cycle; the controller's own branching is
translated line by line.
-/

namespace SoilMonitor

/-- Outcome of one urlopen call inside MainController.has_internet:
the request returned, it raised URLError (the only class the code
catches), or it raised any other exception. -/
inductive UrlOutcome where
  | success
  | urlError
  | otherError
deriving DecidableEq

/-- MainController.has_internet (lines 31-39): try each configured URL in
order; a successful request returns True at once; URLError is caught and
the next URL is tried; after the loop returns False.  An exception that is
not a URLError is not caught and propagates (modelled as Except.error). -/
def hasInternet : List UrlOutcome → Except Unit Bool
  | [] => .ok false
  | .success :: _ => .ok true
  | .urlError :: rest => hasInternet rest
  | .otherError :: _ => .error ()

/-- One row of the sensors table as fetchone returns it for the machine_id:
the farm_id column and the is_active column, each possibly NULL. -/
structure SensorRow where
  farm_id : Option Int
  is_active : Option Int
deriving DecidableEq

/-- Python truth of result[1]==1 where result[1] may be NULL:
None == 1 is False; an integer compares numerically. -/
def eqOne : Option Int → Bool
  | some a => a == 1
  | none => false

/-- MainController.is_sensor_assigned (lines 41-66).  No internet: return
True (assume assigned, allowing offline collection).  Otherwise run the
sensors-table lookup: a raised exception is caught and yields False; a
missing row yields False; a row yields (farm_id is not None) and
(is_active == 1).  A fault of has_internet itself (non-URLError) happens
outside the try block and propagates. -/
def isSensorAssigned (net : List UrlOutcome)
    (db : Except Unit (Option SensorRow)) : Except Unit Bool :=
  match hasInternet net with
  | .error e => .error e
  | .ok false => .ok true
  | .ok true =>
    match db with
    | .error _ => .ok false
    | .ok none => .ok false
    | .ok (some row) => .ok (row.farm_id.isSome && eqOne row.is_active)

/-- Config.MAX_OFFLINE_RECORDS (Config.py line 24). -/
def MAX_OFFLINE_RECORDS : Nat := 1000

/-- The authorization predicate in the words of the claim, for comparison
with isSensorAssigned: Authorized exactly when the sensors-table lookup
returns a row whose farm_id is non-null and whose is_active equals 1; a
missing row, a null farm_id, any other is_active value, or an exception
during the lookup are all not-authorized. -/
def specAuthorized (db : Except Unit (Option SensorRow)) : Bool :=
  match db with
  | .ok (some row) =>
    match row.farm_id, row.is_active with
    | some _, some a => a == 1
    | _, _ => false
  | _ => false

/-- Modelled from the spec: OfflineLogger (the LocalBuffer) is imported by
MainController.py but its file is not part of the repository sources, so
its append operation is taken from the spec's LocalBuffer contract:
append adds the reading at the tail and, when the buffer is at capacity,
evicts from the head (oldest first), never rejecting the new reading and
guaranteeing size at most MaxCapacity afterwards. -/
def bufferAppend {α : Type} (cap : Nat) (buf : List α) (r : α) : List α :=
  let b := buf ++ [r]
  if b.length ≤ cap then b else b.drop (b.length - cap)

/-- Appending a whole sequence of readings, oldest first, with no drain in
between (iterated bufferAppend). -/
def appendAll {α : Type} (cap : Nat) (b0 : List α) (rs : List α) : List α :=
  rs.foldl (bufferAppend cap) b0

/-- The generator all(self.online.save(row) for _, row in
offline_data.iterrows()) of MainController.run line 88: attempt the
buffered readings in order, stopping at the first failed save.  ok i gives
the outcome of the i-th remote write of this drain; the result is the list
of readings actually passed to online.save, and whether all of them
succeeded. -/
def drainCalls {α : Type} (ok : Nat → Bool) : Nat → List α → List α × Bool
  | _, [] => ([], true)
  | i, r :: rs =>
    if ok i then
      let rest := drainCalls ok (i + 1) rs
      (r :: rest.1, rest.2)
    else ([r], false)

/-- The outcomes of the external calls one cycle of MainController.run can
make: the probe outcomes of the two has_internet calls (line 72 via
is_sensor_assigned, and line 83), the sensors-table lookup, the sensor
read (None for a falsy/failed read), the fresh online.save outcome, and
the outcome of the i-th online.save of the drain. -/
structure Env (α : Type) where
  net1 : List UrlOutcome
  db : Except Unit (Option SensorRow)
  read : Option α
  net2 : List UrlOutcome
  freshOk : Bool
  drainOk : Nat → Bool

/-- What one cycle left behind: the local buffer contents, the readings
passed to online.save in call order (appended to the remote trace),
how many times sensor.read_data ran, and how many sensors-table lookups
were attempted. -/
structure CycleResult (α : Type) where
  buffer : List α
  remote : List α
  sensorReads : Nat
  dbQueries : Nat
deriving DecidableEq

/-- Number of sensors-table lookups a cycle attempts: one exactly when
has_internet reported True inside is_sensor_assigned. -/
def dbQueriesOf (net : List UrlOutcome) : Nat :=
  match hasInternet net with
  | .ok true => 1
  | _ => 0

/-- One iteration of the while-loop body of MainController.run
(lines 71-93), with time.sleep and logging dropped.  Control flow:
if not is_sensor_assigned: continue.  data = read; if not data: continue.
if has_internet: if online.save(data): load offline data, and if non-empty
and all buffered saves succeed, offline.clear(); (a failed fresh save ends
the cycle: there is no fallback branch).  else: offline.save(data).
An uncaught exception (Except.error) aborts the loop, which catches only
KeyboardInterrupt. -/
def runCycle {α : Type} (cap : Nat) (env : Env α) (buffer remote : List α) :
    Except Unit (CycleResult α) :=
  match isSensorAssigned env.net1 env.db with
  | .error e => .error e
  | .ok false => .ok ⟨buffer, remote, 0, dbQueriesOf env.net1⟩
  | .ok true =>
    match env.read with
    | none => .ok ⟨buffer, remote, 1, dbQueriesOf env.net1⟩
    | some r =>
      match hasInternet env.net2 with
      | .error e => .error e
      | .ok true =>
        if env.freshOk then
          if buffer.isEmpty then
            .ok ⟨buffer, remote ++ [r], 1, dbQueriesOf env.net1⟩
          else
            let dc := drainCalls env.drainOk 0 buffer
            if dc.2 then
              .ok ⟨[], remote ++ r :: dc.1, 1, dbQueriesOf env.net1⟩
            else
              .ok ⟨buffer, remote ++ r :: dc.1, 1, dbQueriesOf env.net1⟩
        else
          .ok ⟨buffer, remote ++ [r], 1, dbQueriesOf env.net1⟩
      | .ok false =>
        .ok ⟨bufferAppend cap buffer r, remote, 1, dbQueriesOf env.net1⟩

/-- A run of consecutive cycles, threading the buffer and the remote trace
and accumulating the read / lookup counts; it stops at the first cycle
that aborts with an uncaught exception. -/
def runCycles {α : Type} (cap : Nat) :
    List (Env α) → CycleResult α → Except Unit (CycleResult α)
  | [], st => .ok st
  | e :: es, st =>
    match runCycle cap e st.buffer st.remote with
    | .error x => .error x
    | .ok res =>
      runCycles cap es
        ⟨res.buffer, res.remote, st.sensorReads + res.sensorReads,
          st.dbQueries + res.dbQueries⟩

/-! ### Concrete cycle environments used for evaluation -/

/-- A sensors-table row that authorizes collection: farm_id assigned,
is_active = 1. -/
def authRow : SensorRow := ⟨some 2, some 1⟩

/-- Online, authorized, read succeeds, fresh write succeeds, every
buffered write of the drain fails. -/
def envDrainFail : Env Nat :=
  ⟨[.success], .ok (some authRow), some 9, [.success], true, fun _ => false⟩

/-- Online, authorized, read succeeds, fresh write and every buffered
write succeed. -/
def envAllOk : Env Nat :=
  ⟨[.success], .ok (some authRow), some 9, [.success], true, fun _ => true⟩

/-- Online, authorized, read succeeds, fresh write fails. -/
def envFreshFail : Env Nat :=
  ⟨[.success], .ok (some authRow), some 9, [.success], false, fun _ => true⟩

/-- Connectivity unreachable at the assignment check (both URLs raise
URLError) but reachable again at routing time; the lookup would have
errored had it run. -/
def envFlap : Env Nat :=
  ⟨[.urlError, .urlError], .error (), some 9, [.success], true, fun _ => true⟩

/-- Online, lookup returns a row with is_active = 0: unauthorized, though
the sensor read would have succeeded. -/
def envUnauth : Env Nat :=
  ⟨[.success], .ok (some ⟨some 2, some 0⟩), some 9, [.success], true, fun _ => true⟩

/-- Online but the sensors-table lookup raises: indeterminate
authorization. -/
def envOracleErr : Env Nat :=
  ⟨[.success], .error (), some 9, [.success], true, fun _ => true⟩

/-- The first urlopen call raises a non-URLError exception; the second URL
would have answered. -/
def envProbeRaise : Env Nat :=
  ⟨[.otherError, .success], .ok none, some 9, [.success], true, fun _ => true⟩

/-- A fully offline cycle (every urlopen of both probes raises URLError)
with a successful read of r. -/
def offEnv (r : Nat) : Env Nat :=
  ⟨[.urlError, .urlError], .ok none, some r, [.urlError, .urlError], true,
    fun _ => true⟩

/-! ### Helper lemmas -/

/-- A probe run that never hits a non-URLError fault returns a boolean. -/
lemma hasInternet_ok (outs : List UrlOutcome) (h : UrlOutcome.otherError ∉ outs) :
    ∃ b, hasInternet outs = .ok b := by
  induction outs with
  | nil => exact ⟨false, rfl⟩
  | cons o rest ih =>
    cases o with
    | success => exact ⟨true, rfl⟩
    | urlError =>
      simpa [hasInternet] using ih (fun hmem => h (List.mem_cons_of_mem _ hmem))
    | otherError => exact absurd (List.mem_cons_self _ _) h

/-- With connectivity reachable, the code's assignment check computes
exactly the claimed authorization predicate. -/
lemma assigned_online (net : List UrlOutcome) (db : Except Unit (Option SensorRow))
    (h : hasInternet net = .ok true) :
    isSensorAssigned net db = .ok (specAuthorized db) := by
  cases db with
  | error e => simp [isSensorAssigned, h, specAuthorized]
  | ok o =>
    cases o with
    | none => simp [isSensorAssigned, h, specAuthorized]
    | some row =>
      obtain ⟨fid, act⟩ := row
      cases fid <;> cases act <;> simp [isSensorAssigned, h, specAuthorized, eqOne]

/-- With connectivity unreachable, the assignment check assumes True
without consulting the database. -/
lemma assigned_offline (net : List UrlOutcome) (db : Except Unit (Option SensorRow))
    (h : hasInternet net = .ok false) :
    isSensorAssigned net db = .ok true := by
  simp [isSensorAssigned, h]

/-- If every remote write of the drain succeeds, the generator consumes
the whole batch and reports success. -/
lemma drainCalls_all {α : Type} (ok : Nat → Bool) (s : Nat) (rs : List α)
    (h : ∀ i, i < rs.length → ok (s + i) = true) :
    drainCalls ok s rs = (rs, true) := by
  induction rs generalizing s with
  | nil => rfl
  | cons r rest ih =>
    have h0 : ok s = true := by simpa using h 0 (by simp)
    have hrest : ∀ i, i < rest.length → ok (s + 1 + i) = true := by
      intro i hi
      have hlt : i + 1 < (r :: rest).length := by simpa using Nat.succ_lt_succ hi
      have := h (i + 1) hlt
      have e : s + (i + 1) = s + 1 + i := by omega
      rwa [e] at this
    simp [drainCalls, h0, ih (s + 1) hrest]

/-- If the first failed remote write of the drain is the j-th one, the
generator attempts exactly the first j+1 readings and reports failure. -/
lemma drainCalls_firstFail {α : Type} (ok : Nat → Bool) (s : Nat) (rs : List α)
    (j : Nat) (hj : j < rs.length) (hfail : ok (s + j) = false)
    (hmin : ∀ i, i < j → ok (s + i) = true) :
    drainCalls ok s rs = (rs.take (j + 1), false) := by
  induction rs generalizing s j with
  | nil => simp at hj
  | cons r rest ih =>
    cases j with
    | zero =>
      have h0 : ok s = false := by simpa using hfail
      simp [drainCalls, h0]
    | succ j =>
      have h0 : ok s = true := by simpa using hmin 0 (Nat.succ_pos j)
      have hfail2 : ok (s + 1 + j) = false := by
        have e : s + (j + 1) = s + 1 + j := by omega
        rwa [e] at hfail
      have hmin2 : ∀ i, i < j → ok (s + 1 + i) = true := by
        intro i hi
        have := hmin (i + 1) (Nat.succ_lt_succ hi)
        have e : s + (i + 1) = s + 1 + i := by omega
        rwa [e] at this
      have hj2 : j < rest.length := by simp at hj; omega
      simp [drainCalls, h0, ih (s + 1) j hj2 hfail2 hmin2, List.take_succ_cons]

/-- bufferAppend written as one drop from the head. -/
lemma bufferAppend_eq_drop {α : Type} (cap : Nat) (buf : List α) (r : α) :
    bufferAppend cap buf r = (buf ++ [r]).drop (buf.length + 1 - cap) := by
  have hlen : (buf ++ [r]).length = buf.length + 1 := by simp
  by_cases h : buf.length + 1 ≤ cap
  · have e : buf.length + 1 - cap = 0 := by omega
    simp [bufferAppend, hlen, h, e]
  · simp [bufferAppend, hlen, h]

/-- The modelled append never leaves more than cap readings. -/
lemma bufferAppend_length_le {α : Type} (cap : Nat) (buf : List α) (r : α) :
    (bufferAppend cap buf r).length ≤ cap := by
  rw [bufferAppend_eq_drop]
  simp only [List.length_drop, List.length_append, List.length_cons,
    List.length_nil]
  omega

/-- A suffix short enough to survive a drop from the head is still a
suffix afterwards. -/
lemma isSuffix_drop_of_isSuffix {α : Type} {s l : List α} (hs : List.IsSuffix s l)
    (k : Nat) (hk : s.length + k ≤ l.length) : List.IsSuffix s (l.drop k) := by
  obtain ⟨t, rfl⟩ := hs
  have hkt : k ≤ t.length := by simp at hk; omega
  rw [List.drop_append_of_le_length hkt]
  exact ⟨t.drop k, rfl⟩

/-- Appending one more reading to a head-dropped list commutes with
dropping at the combined index. -/
lemma bufferAppend_drop {α : Type} (cap : Nat) (l : List α) (r : α) :
    bufferAppend cap (l.drop (l.length - cap)) r
      = (l ++ [r]).drop (l.length + 1 - cap) := by
  rw [bufferAppend_eq_drop]
  by_cases h : l.length ≤ cap
  · have e : l.length - cap = 0 := by omega
    simp [e]
  · have hD : (l.drop (l.length - cap)).length = cap := by
      simp only [List.length_drop]; omega
    rw [hD]
    rcases Nat.eq_zero_or_pos cap with hc | hc
    · subst hc
      have e0 : l.length - 0 = l.length := by omega
      rw [e0, List.drop_length]
      have e1 : (([] : List α) ++ [r]).drop (0 + 1 - 0) = [] := by simp
      rw [e1]
      have e2 : l.length + 1 - 0 = l.length + 1 := by omega
      rw [e2]
      refine (List.drop_eq_nil_iff.mpr ?_).symm
      simp
    · have e1 : cap + 1 - cap = 1 := by omega
      rw [e1]
      have hle : (1 : Nat) ≤ (l.drop (l.length - cap)).length := by rw [hD]; omega
      rw [List.drop_append_of_le_length hle, List.drop_drop]
      have e2 : l.length + 1 - cap = l.length - cap + 1 := by omega
      rw [e2]
      have hle2 : l.length - cap + 1 ≤ l.length := by omega
      rw [List.drop_append_of_le_length hle2]

/-- Starting from an empty buffer, iterated append keeps exactly the most
recent cap readings. -/
lemma appendAll_nil_eq_drop {α : Type} (cap : Nat) (rs : List α) :
    appendAll cap [] rs = rs.drop (rs.length - cap) := by
  induction rs using List.reverseRecOn with
  | nil => simp [appendAll]
  | append_singleton rs r ih =>
    have hA : appendAll cap [] (rs ++ [r])
        = bufferAppend cap (appendAll cap [] rs) r := by
      simp [appendAll, List.foldl_append]
    rw [hA, ih, bufferAppend_drop]
    simp

/-- At most cap readings appended in a row all survive, as a suffix of the
buffer, whatever the starting buffer was. -/
lemma isSuffix_appendAll {α : Type} (cap : Nat) (b0 rs : List α)
    (h : rs.length ≤ cap) : List.IsSuffix rs (appendAll cap b0 rs) := by
  induction rs using List.reverseRecOn with
  | nil => exact List.nil_suffix
  | append_singleton rs r ih =>
    have h1 : rs.length + 1 ≤ cap := by simpa using h
    have ihs := ih (by omega)
    have hA : appendAll cap b0 (rs ++ [r])
        = bufferAppend cap (appendAll cap b0 rs) r := by
      simp [appendAll, List.foldl_append]
    rw [hA, bufferAppend_eq_drop]
    have hsnoc : List.IsSuffix (rs ++ [r]) (appendAll cap b0 rs ++ [r]) := by
      obtain ⟨t, ht⟩ := ihs
      exact ⟨t, by rw [← List.append_assoc, ht]⟩
    apply isSuffix_drop_of_isSuffix hsnoc
    have hle := ihs.length_le
    simp only [List.length_append, List.length_cons, List.length_nil]
    omega

/-- One fully offline cycle with a successful read: no database query, one
read, the reading appended locally, nothing sent remotely. -/
lemma runCycle_offline {α : Type} (cap : Nat) (env : Env α) (buf rem : List α)
    (r : α) (h1 : hasInternet env.net1 = .ok false)
    (h2 : hasInternet env.net2 = .ok false) (hr : env.read = some r) :
    runCycle cap env buf rem = .ok ⟨bufferAppend cap buf r, rem, 1, 0⟩ := by
  simp [runCycle, isSensorAssigned, dbQueriesOf, h1, h2, hr]

/-- A run of fully offline cycles with successful reads: the buffer folds
up with bufferAppend, nothing reaches the remote store, each cycle reads
once and never queries the database. -/
lemma runCycles_offline {α : Type} (cap : Nat) (envs : List (Env α))
    (rs : List α)
    (h : List.Forall₂ (fun e r => hasInternet e.net1 = Except.ok false ∧
        hasInternet e.net2 = Except.ok false ∧ e.read = some r) envs rs)
    (b0 rem : List α) (n q : Nat) :
    runCycles cap envs ⟨b0, rem, n, q⟩ =
      .ok ⟨appendAll cap b0 rs, rem, n + rs.length, q⟩ := by
  induction h generalizing b0 n with
  | nil => simp [runCycles, appendAll]
  | @cons e r es rs2 he hrest ih =>
    obtain ⟨hn1, hn2, hread⟩ := he
    have step := runCycle_offline cap e b0 rem r hn1 hn2 hread
    simp only [runCycles, step]
    simp only [Nat.add_zero]
    rw [ih (bufferAppend cap b0 r) (n + 1)]
    have e1 : appendAll cap (bufferAppend cap b0 r) rs2
        = appendAll cap b0 (r :: rs2) := rfl
    have e2 : n + 1 + rs2.length = n + (r :: rs2).length := by
      simp only [List.length_cons]; omega
    rw [e1, e2]

/-- When both probe calls return a boolean, every branch of the cycle ends
normally: all remaining external-call failures are routing decisions. -/
lemma runCycle_ok_total {α : Type} (cap : Nat) (env : Env α)
    (buf rem : List α) (b1 b2 : Bool) (hb1 : hasInternet env.net1 = .ok b1)
    (hb2 : hasInternet env.net2 = .ok b2) :
    ∃ res, runCycle cap env buf rem = .ok res := by
  have ha : ∃ a, isSensorAssigned env.net1 env.db = .ok a := by
    cases b1 with
    | false => exact ⟨true, assigned_offline env.net1 env.db hb1⟩
    | true => exact ⟨specAuthorized env.db, assigned_online env.net1 env.db hb1⟩
  obtain ⟨a, ha⟩ := ha
  cases a with
  | false => exact ⟨⟨buf, rem, 0, dbQueriesOf env.net1⟩, by simp [runCycle, ha]⟩
  | true =>
    cases hr : env.read with
    | none =>
      exact ⟨⟨buf, rem, 1, dbQueriesOf env.net1⟩, by simp [runCycle, ha, hr]⟩
    | some r =>
      cases b2 with
      | false =>
        exact ⟨⟨bufferAppend cap buf r, rem, 1, dbQueriesOf env.net1⟩,
          by simp [runCycle, ha, hr, hb2]⟩
      | true =>
        cases hf : env.freshOk with
        | false =>
          exact ⟨⟨buf, rem ++ [r], 1, dbQueriesOf env.net1⟩,
            by simp [runCycle, ha, hr, hb2, hf]⟩
        | true =>
          cases hbe : buf.isEmpty with
          | true =>
            exact ⟨⟨buf, rem ++ [r], 1, dbQueriesOf env.net1⟩,
              by simp [runCycle, ha, hr, hb2, hf, hbe]⟩
          | false =>
            cases hdc : drainCalls env.drainOk 0 buf with
            | mk calls allOk =>
              cases allOk with
              | true =>
                exact ⟨⟨[], rem ++ r :: calls, 1, dbQueriesOf env.net1⟩,
                  by simp [runCycle, ha, hr, hb2, hf, hbe, hdc]⟩
              | false =>
                exact ⟨⟨buf, rem ++ r :: calls, 1, dbQueriesOf env.net1⟩,
                  by simp [runCycle, ha, hr, hb2, hf, hbe, hdc]⟩

/-! ### The claims -/

/-- Claim C1 (atomic drain): in an online, authorized cycle whose fresh
write succeeds, if the first failed buffered write of the drain is the
j-th one (any position within the M buffered readings), the engine stops
the drain there — exactly j+1 buffered saves are attempted — does not call
clear, and the local buffer afterwards still holds all M original readings
unmodified; the buffer is emptied only when every buffered write
succeeds. -/
theorem c1_atomic_drain {α : Type} (cap : Nat) (env : Env α)
    (buf rem : List α) (r : α) (h1 : hasInternet env.net1 = .ok true)
    (hdb : specAuthorized env.db = true) (hr : env.read = some r)
    (h2 : hasInternet env.net2 = .ok true) (hf : env.freshOk = true)
    (j : Nat) (hj : j < buf.length) (hfail : env.drainOk j = false)
    (hmin : ∀ i, i < j → env.drainOk i = true) :
    runCycle cap env buf rem = .ok ⟨buf, rem ++ r :: buf.take (j + 1), 1, 1⟩ := by
  have hne : buf.isEmpty = false := by
    cases buf with
    | nil => simp at hj
    | cons a l => rfl
  have hdc : drainCalls env.drainOk 0 buf = (buf.take (j + 1), false) :=
    drainCalls_firstFail env.drainOk 0 buf j hj (by simpa using hfail)
      (fun i hi => by simpa using hmin i hi)
  simp [runCycle, assigned_online env.net1 env.db h1, hdb, hr, h2, hf, hne,
    hdc, dbQueriesOf, h1]

/-- Claim C1 witness: two buffered readings, the first buffered write
fails: the buffer still holds both readings and only that one buffered
save was attempted after the fresh write. -/
theorem c1_witness :
    runCycle 1000 envDrainFail [4, 5] [] = .ok ⟨[4, 5], [9, 4], 1, 1⟩ := by
  have h := c1_atomic_drain 1000 envDrainFail [4, 5] [] 9 rfl rfl rfl rfl rfl 0
    (by decide) rfl (fun i hi => absurd hi (Nat.not_lt_zero i))
  simpa using h

/-- Claim C2 (drain-then-clear): in an online, authorized cycle where the
fresh write succeeds and every one of the M buffered writes succeeds, the
buffer is empty afterwards and the remote store received the fresh reading
followed by the M buffered readings in their original oldest-first order;
and when the fresh write fails, no buffered write is attempted at all (the
drain runs only after a successful fresh write). -/
theorem c2_drain_then_clear {α : Type} (cap : Nat) (env : Env α)
    (buf rem : List α) (r : α) (h1 : hasInternet env.net1 = .ok true)
    (hdb : specAuthorized env.db = true) (hr : env.read = some r)
    (h2 : hasInternet env.net2 = .ok true)
    (hall : ∀ i, i < buf.length → env.drainOk i = true) :
    (env.freshOk = true →
      runCycle cap env buf rem = .ok ⟨[], rem ++ r :: buf, 1, 1⟩) ∧
    (env.freshOk = false →
      runCycle cap env buf rem = .ok ⟨buf, rem ++ [r], 1, 1⟩) := by
  constructor
  · intro hf
    have hdc : drainCalls env.drainOk 0 buf = (buf, true) :=
      drainCalls_all env.drainOk 0 buf (fun i hi => by simpa using hall i hi)
    cases hbe : buf.isEmpty with
    | true =>
      have hnil : buf = [] := List.isEmpty_iff.mp hbe
      subst hnil
      simp [runCycle, assigned_online env.net1 env.db h1, hdb, hr, h2, hf,
        dbQueriesOf, h1]
    | false =>
      simp [runCycle, assigned_online env.net1 env.db h1, hdb, hr, h2, hf,
        hbe, hdc, dbQueriesOf, h1]
  · intro hf
    simp [runCycle, assigned_online env.net1 env.db h1, hdb, hr, h2, hf,
      dbQueriesOf, h1]

/-- Claim C2 witness: buffer [4, 5] drains after the fresh write of 9; the
buffer ends empty and the remote trace is [9, 4, 5] in call order. -/
theorem c2_witness :
    runCycle 1000 envAllOk [4, 5] [] = .ok ⟨[], [9, 4, 5], 1, 1⟩ := by
  have h := (c2_drain_then_clear 1000 envAllOk [4, 5] [] 9 rfl rfl rfl rfl
    (fun i _ => rfl)).1 rfl
  simpa using h

/-- Claim C3 counterexample: online, authorized, the sensor read returns 9
and the fresh remote write fails; the cycle ends with the buffer unchanged
([4]) — the reading 9 was dropped, not appended to the local buffer as the
claim states. -/
theorem c3_counterexample :
    runCycle 1000 envFreshFail [4] [] = .ok ⟨[4], [9], 1, 1⟩ ∧
    List.contains [4] 9 = false := ⟨rfl, rfl⟩

/-- Claim C3 as amended: in every online, authorized cycle whose sensor
read succeeds but whose fresh remote write fails, the engine leaves the
local buffer untouched (the reading is dropped) and attempts no drain;
the only remote call of the cycle is the one failed fresh write. -/
theorem c3_amended {α : Type} (cap : Nat) (env : Env α) (buf rem : List α)
    (r : α) (h1 : hasInternet env.net1 = .ok true)
    (hdb : specAuthorized env.db = true) (hr : env.read = some r)
    (h2 : hasInternet env.net2 = .ok true) (hf : env.freshOk = false) :
    runCycle cap env buf rem = .ok ⟨buf, rem ++ [r], 1, 1⟩ := by
  simp [runCycle, assigned_online env.net1 env.db h1, hdb, hr, h2, hf,
    dbQueriesOf, h1]

/-- Claim C3 witness: fresh write of 9 fails with buffer [4, 5]; the
buffer is unchanged and no buffered write was attempted. -/
theorem c3_witness :
    runCycle 1000 envFreshFail [4, 5] [] = .ok ⟨[4, 5], [9], 1, 1⟩ :=
  c3_amended 1000 envFreshFail [4, 5] [] 9 rfl rfl rfl rfl rfl

/-- Claim C4 counterexample: connectivity is unreachable during the
assignment check (so the verdict is assumed, never established as
Authorized — zero database queries) but reachable again at routing time:
the fresh reading 9 is written to the remote store anyway. -/
theorem c4_counterexample :
    runCycle 1000 envFlap [] [] = .ok ⟨[], [9], 1, 0⟩ ∧
    hasInternet envFlap.net1 = .ok false ∧
    specAuthorized envFlap.db = false := ⟨rfl, rfl, rfl⟩

/-- Claim C4 as amended: a fresh reading reaches the remote store only if
the routing-time connectivity check reports reachable, and — whenever the
check-time probe also reported reachable — only with an Authorized
verdict; the unauthorized-write window exists exactly when connectivity is
unreachable at the assignment check and reachable at routing time. -/
theorem c4_amended {α : Type} (cap : Nat) (env : Env α) (buf rem : List α)
    (res : CycleResult α) (hrun : runCycle cap env buf rem = .ok res)
    (hgrow : res.remote ≠ rem) :
    hasInternet env.net2 = .ok true ∧
    (hasInternet env.net1 = .ok true → specAuthorized env.db = true) := by
  cases hb1 : hasInternet env.net1 with
  | error e => simp [runCycle, isSensorAssigned, hb1] at hrun
  | ok b1 =>
    cases b1 with
    | false =>
      have ha := assigned_offline env.net1 env.db hb1
      cases hr : env.read with
      | none =>
        simp [runCycle, ha, hr] at hrun
        subst hrun
        simp at hgrow
      | some r =>
        cases hb2 : hasInternet env.net2 with
        | error e => simp [runCycle, ha, hr, hb2] at hrun
        | ok b2 =>
          cases b2 with
          | false =>
            simp [runCycle, ha, hr, hb2] at hrun
            subst hrun
            simp at hgrow
          | true =>
            refine ⟨rfl, fun hcontr => ?_⟩
            simp at hcontr
    | true =>
      have ha := assigned_online env.net1 env.db hb1
      cases hsa : specAuthorized env.db with
      | false =>
        rw [hsa] at ha
        simp [runCycle, ha] at hrun
        subst hrun
        simp at hgrow
      | true =>
        rw [hsa] at ha
        cases hr : env.read with
        | none =>
          simp [runCycle, ha, hr] at hrun
          subst hrun
          simp at hgrow
        | some r =>
          cases hb2 : hasInternet env.net2 with
          | error e => simp [runCycle, ha, hr, hb2] at hrun
          | ok b2 =>
            cases b2 with
            | false =>
              simp [runCycle, ha, hr, hb2] at hrun
              subst hrun
              simp at hgrow
            | true => exact ⟨rfl, fun _ => rfl⟩

/-- Claim C4 witness: an online authorized cycle whose remote trace grew;
the amended theorem recovers that routing-time connectivity was up and the
verdict was Authorized. -/
theorem c4_witness :
    hasInternet envAllOk.net2 = .ok true ∧
    (hasInternet envAllOk.net1 = .ok true →
      specAuthorized envAllOk.db = true) :=
  c4_amended 1000 envAllOk [] [] ⟨[], [9], 1, 1⟩ rfl (by simp)

/-- Claim C5 (exclusion over buffering): when connectivity is reachable
and the sensors-table lookup answers with a non-authorizing row or no row
(verdict Unauthorized), the cycle does not read the sensor, writes nothing
remotely and appends nothing locally — whatever the sensor read would have
returned. -/
theorem c5_exclusion {α : Type} (cap : Nat) (env : Env α) (buf rem : List α)
    (d : Option SensorRow) (h1 : hasInternet env.net1 = .ok true)
    (_hd : env.db = .ok d) (hdb : specAuthorized env.db = false) :
    runCycle cap env buf rem = .ok ⟨buf, rem, 0, 1⟩ := by
  simp [runCycle, assigned_online env.net1 env.db h1, hdb, dbQueriesOf, h1]

/-- Claim C5 witness: is_active = 0 row; the cycle skips collection even
though the read would have returned 9. -/
theorem c5_witness : runCycle 1000 envUnauth [4] [] = .ok ⟨[4], [], 0, 1⟩ :=
  c5_exclusion 1000 envUnauth [4] [] (some ⟨some 2, some 0⟩) rfl rfl rfl

/-- Claim C6 (fail-safe on indeterminate authorization): with connectivity
reachable but the lookup itself erroring, the cycle behaves exactly as the
Unauthorized case — no read, no remote write, no append — and not as the
Offline case, which would read the sensor and append the reading
locally. -/
theorem c6_failsafe {α : Type} (cap : Nat) (env : Env α) (buf rem : List α)
    (r : α) (h1 : hasInternet env.net1 = .ok true) (hd : env.db = .error ())
    (hr : env.read = some r) :
    runCycle cap env buf rem = .ok ⟨buf, rem, 0, 1⟩ ∧
    runCycle cap env buf rem =
      runCycle cap ⟨env.net1, .ok none, env.read, env.net2, env.freshOk,
        env.drainOk⟩ buf rem ∧
    runCycle cap ⟨[UrlOutcome.urlError, UrlOutcome.urlError], env.db,
        env.read, [UrlOutcome.urlError, UrlOutcome.urlError], env.freshOk,
        env.drainOk⟩ buf rem = .ok ⟨bufferAppend cap buf r, rem, 1, 0⟩ := by
  have hauth : specAuthorized env.db = false := by rw [hd]; rfl
  refine ⟨?_, ?_, ?_⟩
  · simp [runCycle, assigned_online env.net1 env.db h1, hauth, dbQueriesOf, h1]
  · have e0 : specAuthorized (Except.ok none) = false := rfl
    have ha2 := assigned_online env.net1 (Except.ok none) h1
    rw [e0] at ha2
    simp [runCycle, assigned_online env.net1 env.db h1, hauth, ha2,
      dbQueriesOf, h1]
  · exact runCycle_offline cap _ buf rem r rfl rfl hr

/-- Claim C6 witness: the lookup raises; the cycle equals the Unauthorized
cycle and differs from the Offline cycle, which appends 9. -/
theorem c6_witness :
    runCycle 1000 envOracleErr [4] [] = .ok ⟨[4], [], 0, 1⟩ ∧
    runCycle 1000 envOracleErr [4] [] =
      runCycle 1000 ⟨envOracleErr.net1, .ok none, envOracleErr.read,
        envOracleErr.net2, envOracleErr.freshOk, envOracleErr.drainOk⟩
        [4] [] ∧
    runCycle 1000 ⟨[UrlOutcome.urlError, UrlOutcome.urlError],
        envOracleErr.db, envOracleErr.read,
        [UrlOutcome.urlError, UrlOutcome.urlError], envOracleErr.freshOk,
        envOracleErr.drainOk⟩ [4] []
      = .ok ⟨bufferAppend 1000 [4] 9, [], 1, 0⟩ :=
  c6_failsafe 1000 envOracleErr [4] [] 9 rfl rfl rfl

/-- Claim C7 (no loss while offline): across any run of consecutive fully
offline cycles with successful reads, no database query is ever made, each
cycle reads once and appends its reading, nothing is sent remotely, and
when the number of readings is at most the capacity they all survive as a
suffix of the local buffer. -/
theorem c7_no_loss_offline {α : Type} (cap : Nat) (envs : List (Env α))
    (rs : List α) (b0 rem : List α)
    (h : List.Forall₂ (fun e r => hasInternet e.net1 = Except.ok false ∧
        hasInternet e.net2 = Except.ok false ∧ e.read = some r) envs rs)
    (hcap : rs.length ≤ cap) :
    runCycles cap envs ⟨b0, rem, 0, 0⟩ =
      .ok ⟨appendAll cap b0 rs, rem, rs.length, 0⟩ ∧
    List.IsSuffix rs (appendAll cap b0 rs) := by
  refine ⟨?_, isSuffix_appendAll cap b0 rs hcap⟩
  have h0 := runCycles_offline cap envs rs h b0 rem 0 0
  simpa using h0

/-- Claim C7 witness: two offline cycles reading 5 then 7 with capacity 3;
both readings are recoverable and no database query was made. -/
theorem c7_witness :
    runCycles 3 [offEnv 5, offEnv 7] ⟨[], [], 0, 0⟩ =
      .ok ⟨appendAll 3 [] [5, 7], [], 2, 0⟩ ∧
    List.IsSuffix [5, 7] (appendAll 3 [] [5, 7]) :=
  c7_no_loss_offline 3 [offEnv 5, offEnv 7] [5, 7] [] []
    (List.Forall₂.cons ⟨rfl, rfl, rfl⟩
      (List.Forall₂.cons ⟨rfl, rfl, rfl⟩ List.Forall₂.nil))
    (by decide)

/-- Claim C8 counterexample: the first urlopen call raises a non-URLError
exception; has_internet propagates it instead of mapping it to false, and
the cycle loop — which catches only KeyboardInterrupt — aborts. -/
theorem c8_counterexample :
    runCycle 1000 envProbeRaise [] [] = .error () ∧
    hasInternet envProbeRaise.net1 = .error () := ⟨rfl, rfl⟩

/-- Claim C8 as amended: URLError faults of the probe are caught (the next
URL is tried, exhaustion maps to false) and every other external-call
failure — lookup error, failed read, failed fresh write, failed buffered
write — is converted into a routing decision, so a cycle in which neither
probe call hits a non-URLError fault always ends normally; but a
non-URLError probe fault propagates and aborts the loop. -/
theorem c8_amended {α : Type} (cap : Nat) (env : Env α) (buf rem : List α)
    (hn1 : UrlOutcome.otherError ∉ env.net1)
    (hn2 : UrlOutcome.otherError ∉ env.net2) :
    ∃ res, runCycle cap env buf rem = .ok res := by
  obtain ⟨b1, hb1⟩ := hasInternet_ok env.net1 hn1
  obtain ⟨b2, hb2⟩ := hasInternet_ok env.net2 hn2
  exact runCycle_ok_total cap env buf rem b1 b2 hb1 hb2

/-- Claim C8 witness: a fully offline cycle (URLError faults only) ends
normally. -/
theorem c8_witness : ∃ res, runCycle 1000 (offEnv 5) [] [] = .ok res :=
  c8_amended 1000 (offEnv 5) [] [] (by decide) (by decide)

/-- Claim C9 (bounded buffer with oldest-first eviction): an append never
leaves the buffer with more than MAX_OFFLINE_RECORDS readings, and
appending MAX_OFFLINE_RECORDS + K readings into an empty buffer with no
intervening drain keeps exactly the most recent MAX_OFFLINE_RECORDS,
evicting the K oldest. -/
theorem c9_bounded_eviction (α : Type) :
    (∀ (buf : List α) (r : α),
      (bufferAppend MAX_OFFLINE_RECORDS buf r).length ≤ MAX_OFFLINE_RECORDS) ∧
    (∀ (K : Nat) (rs : List α), rs.length = MAX_OFFLINE_RECORDS + K →
      appendAll MAX_OFFLINE_RECORDS [] rs = rs.drop K) := by
  constructor
  · intro buf r
    exact bufferAppend_length_le MAX_OFFLINE_RECORDS buf r
  · intro K rs hlen
    rw [appendAll_nil_eq_drop, hlen, Nat.add_sub_cancel_left]

/-- Claim C10 (exact authorization predicate): with connectivity
reachable, the code's assignment check returns precisely the claimed
predicate — True exactly for a returned row with non-null farm_id and
is_active equal to 1; a missing row, a null farm_id, any other is_active
or a lookup exception all yield False. -/
theorem c10_authorization_predicate (net : List UrlOutcome)
    (db : Except Unit (Option SensorRow)) (h : hasInternet net = .ok true) :
    isSensorAssigned net db = .ok (specAuthorized db) :=
  assigned_online net db h

/-- Claim C10 witness: an authorizing row evaluated concretely. -/
theorem c10_witness :
    isSensorAssigned [UrlOutcome.success] (Except.ok (some authRow))
      = .ok (specAuthorized (Except.ok (some authRow))) :=
  c10_authorization_predicate [UrlOutcome.success]
    (Except.ok (some authRow)) rfl

end SoilMonitor
